import Mathlib

set_option maxHeartbeats 1000000

namespace ArchivePortal

/-! Shallow embedding of the entitlement-resolution and idempotent
webhook-processing core of the payment-event-driven access-control server
(`src/server/index.js`, plus the Firebase-token variant `src/unnamed/part_000`).
External collaborators (the Stripe read API, the SendGrid transport, the
Firebase token verifier) are modelled as oracles passed in explicitly; all
control flow, error swallowing and state updates are translated from the
JavaScript source. -/

/-- JS `a || b || ''` over possibly-missing strings: the empty string is
falsy, so it falls through to the next alternative. -/
def jsStrOr (a b : Option String) : String :=
  match a with
  | some s => if s = "" then b.getD "" else s
  | none => b.getD ""

/-- ASCII lowercasing of one character, as `String.prototype.toLowerCase`
acts on the ASCII range relevant to email normalization. -/
def lowerChar (c : Char) : Char :=
  if 'A' ≤ c && c ≤ 'Z' then Char.ofNat (c.toNat + 32) else c

/-- `String.prototype.toLowerCase`. -/
def jsToLower (s : String) : String := String.mk (s.toList.map lowerChar)

/-- Drop leading whitespace characters. -/
def trimCharsLeft : List Char → List Char
  | [] => []
  | c :: cs => if c.isWhitespace then trimCharsLeft cs else c :: cs

/-- `String.prototype.trim`: strip whitespace from both ends. -/
def jsTrim (s : String) : String :=
  String.mk ((trimCharsLeft (trimCharsLeft s.toList).reverse).reverse)

/-- Price-ID configuration (the four `PRICE_ID_*` environment variables). -/
structure PriceConfig where
  fullDay : String
  practicalAI : String
  imageGen : String
  googleHP : String
deriving DecidableEq, Repr

/-- `PRODUCT_NAME_MAP`: object literal keyed by the four price IDs.  A later
entry overwrites an earlier one on key collision, hence the reversed
if-chain. -/
def productNameMap (cfg : PriceConfig) (pid : String) : Option String :=
  if pid = cfg.googleHP then some "Googleサービスでつくる無料HP＆業務自動化（GAS）セミナー（第１回開催）"
  else if pid = cfg.imageGen then some "今使える画像生成AIセミナー（第２回開催）"
  else if pid = cfg.practicalAI then some "第２回実務で使えるAI×建築セミナー"
  else if pid = cfg.fullDay then some "AI FES. 参加チケット（1日通し）"
  else none

/-- `ZOOM_LINK_MAP`: price ID → Zoom registration-link meeting keys. -/
def zoomLinkMap (cfg : PriceConfig) (pid : String) : Option (List String) :=
  if pid = cfg.googleHP then some ["E", "F"]
  else if pid = cfg.imageGen then some ["D", "F"]
  else if pid = cfg.practicalAI then some ["C", "F"]
  else if pid = cfg.fullDay then some ["A", "B", "C", "D", "E", "F"]
  else none

/-- `ARCHIVE_SESSION_MAP`: price ID → archive session keys. -/
def archiveSessionMap (cfg : PriceConfig) (pid : String) : Option (List String) :=
  if pid = cfg.googleHP then some ["A", "B", "E1", "E2", "F"]
  else if pid = cfg.imageGen then some ["A", "B", "D", "F"]
  else if pid = cfg.practicalAI then some ["A", "B", "C", "F"]
  else if pid = cfg.fullDay then some ["A", "B", "C", "D", "E1", "E2", "F"]
  else none

/-- `CIRCLE_PRODUCT_ID`: circle subscription product. -/
def circleProductId : String := "prod_TA2S72xlZ4teEN"

/-- The fixed canonical session-key list `['A','B','C','D','E1','E2','F']`. -/
def canonicalSessionKeys : List String := ["A", "B", "C", "D", "E1", "E2", "F"]

/-- `Set.prototype.add`: append `k` unless already present (JS Sets keep
insertion order). -/
def addKey (ks : List String) (k : String) : List String :=
  if k ∈ ks then ks else ks ++ [k]

/-- `keys.forEach(k => set.add(k))`. -/
def addKeys (ks : List String) (newKeys : List String) : List String :=
  newKeys.foldl addKey ks

/-- Lexicographic comparison of char lists by code unit, as used by the JS
default `Array.prototype.sort` on strings. -/
def charListLe : List Char → List Char → Bool
  | [], _ => true
  | _ :: _, [] => false
  | a :: as, b :: bs =>
    if a.val < b.val then true
    else if b.val < a.val then false
    else charListLe as bs

/-- JS default string comparison (lexicographic by code unit). -/
def strLe (a b : String) : Bool := charListLe a.toList b.toList

/-- Insertion into a sorted list under `strLe`. -/
def insertSorted (x : String) : List String → List String
  | [] => [x]
  | y :: ys => if strLe x y then x :: y :: ys else y :: insertSorted x ys

/-- `Array.from(set).sort()`: sort strings lexicographically. -/
def sortStr (l : List String) : List String := l.foldr insertSorted []

/-! ## Notification dispatcher (`sendEmailWithRetry`) -/

/-- The fixed backoff delay array `[1000, 2000, 4000]` (milliseconds). -/
def delays : List Nat := [1000, 2000, 4000]

/-- Observable outcome of one `sendEmailWithRetry` invocation: the returned
or thrown result, the number of transport attempts made, and the backoff
waits actually performed between attempts. -/
structure SendOut where
  result : Except String Unit
  attempts : Nat
  waits : List Nat
deriving Repr

/-- The retry loop body: `attempt` is the current 0-based attempt index,
`fuel` the number of loop iterations remaining (`maxRetries - attempt`).
On a failure that is not the last attempt the loop waits
`delays[attempt]` and retries; on the last attempt it rethrows. -/
def sendGo (transport : Nat → Except String Unit) (attempt : Nat) : Nat → SendOut
  | 0 => ⟨.error "", 0, []⟩
  | fuel + 1 =>
    match transport attempt with
    | .ok _ => ⟨.ok (), 1, []⟩
    | .error msg =>
      match fuel with
      | 0 => ⟨.error msg, 1, []⟩
      | _ + 1 =>
        let rest := sendGo transport (attempt + 1) fuel
        ⟨rest.result, rest.attempts + 1, delays.getD attempt 0 :: rest.waits⟩

/-- `sendEmailWithRetry(to, subject, html)` with the default
`maxRetries = 3`, abstracted over the SendGrid transport: `transport n`
is the outcome of the `n`-th attempt (a non-2xx response is modelled as
`.error`, like the thrown `SendGrid API Error`). -/
def sendEmailWithRetry (transport : Nat → Except String Unit) : SendOut :=
  sendGo transport 0 3

/-! ## Webhook processor -/

/-- One Stripe line item (`item.price?.id`). -/
structure LineItem where
  priceId : Option String
deriving DecidableEq, Repr

/-- The checkout-session object carried by a `checkout.session.completed`
event. -/
structure SessionPayload where
  id : String
  customerDetailsEmail : Option String
  customerEmail : Option String
deriving DecidableEq, Repr

/-- A verified Stripe event. -/
structure StripeEvent where
  id : String
  type : String
  session : SessionPayload
deriving DecidableEq, Repr

/-- External collaborators consulted while handling a checkout event:
the line-item fetch for a session ID, and the notification transport. -/
structure CheckoutWorld where
  lineItems : String → Except String (List LineItem)
  transport : Nat → Except String Unit

/-- Observable side effects of the webhook pipeline, in order. -/
inductive Effect where
  | loadStore
  | fetchLineItems (sessionId : String)
  | catalogLookup (priceId : String)
  | dispatch (recipient : String) (keys : List String)
  | recordFailed (recipient : String) (productName : String) (errMsg : String)
  | saveEvent (eventId : String)
deriving DecidableEq, Repr

/-- One iteration of the catalog loop of `handleCheckoutCompleted`: look the
price ID up in `PRODUCT_NAME_MAP` (a found name overwrites the previous
one) and union the `ZOOM_LINK_MAP` keys into the meeting-key set. -/
def catalogStep (cfg : PriceConfig) (acc : Option String × List String) (pid : String) :
    Option String × List String :=
  (match productNameMap cfg pid with
   | some n => some n
   | none => acc.1,
   match zoomLinkMap cfg pid with
   | some keys => addKeys acc.2 keys
   | none => acc.2)

/-- The catalog loop of `handleCheckoutCompleted` over all purchased price
IDs. -/
def catalogScan (cfg : PriceConfig) (priceIds : List String) : Option String × List String :=
  priceIds.foldl (catalogStep cfg) (none, [])

/-- Lines 346–370 of `handleCheckoutCompleted`: run the catalog loop, skip
(`none`) when no product name was found or no meeting keys accumulated,
otherwise unconditionally add the shared key `F` and sort. -/
def notificationKeys (cfg : PriceConfig) (priceIds : List String) :
    Option (String × List String) :=
  match catalogScan cfg priceIds with
  | (some pn, ks) =>
    if ks.length = 0 then none
    else some (pn, sortStr (addKey ks "F"))
  | (none, _) => none

/-- The `try { sendEmailWithRetry } catch { recordFailedEmail }` block:
one dispatcher invocation; on exhausted retries one failed-email record
holding the recipient, product name and final error. -/
def dispatchAndRecord (transport : Nat → Except String Unit)
    (recipient productName : String) (keys : List String) : List Effect :=
  match (sendEmailWithRetry transport).result with
  | .ok _ => [.dispatch recipient keys]
  | .error msg => [.dispatch recipient keys, .recordFailed recipient productName msg]

/-- Result of `handleCheckoutCompleted`: `thrown` is `some e` when the
function threw (only the line-item fetch can throw), and the effect
trace. -/
structure HandleOut where
  thrown : Option String
  effects : List Effect
deriving DecidableEq, Repr

/-- `handleCheckoutCompleted(session)`. -/
def handleCheckoutCompleted (cfg : PriceConfig) (w : CheckoutWorld) (s : SessionPayload) :
    HandleOut :=
  match w.lineItems s.id with
  | .error e => ⟨some e, [.fetchLineItems s.id]⟩
  | .ok items =>
    let customerEmail := jsStrOr s.customerDetailsEmail s.customerEmail
    if customerEmail = "" then ⟨none, [.fetchLineItems s.id]⟩
    else
      let purchasedPriceIds := (items.filterMap LineItem.priceId).filter (fun p => p != "")
      let effs := Effect.fetchLineItems s.id :: purchasedPriceIds.map Effect.catalogLookup
      match notificationKeys cfg purchasedPriceIds with
      | none => ⟨none, effs⟩
      | some (pn, sortedKeys) =>
        ⟨none, effs ++ dispatchAndRecord w.transport customerEmail pn sortedKeys⟩

/-- HTTP outcomes of `POST /stripe/webhook`. -/
inductive HttpResp where
  | badRequest
  | alreadyProcessed
  | received
  | serverError
deriving DecidableEq, Repr

/-- `POST /stripe/webhook`: signature check (the outcome of
`stripe.webhooks.constructEvent` is the oracle `sigValid`), idempotency
check against the processed-event store, dispatch on the event type, and
commit via `saveProcessedEvent` (which re-reads the store, hence the
second `loadStore`).  Returns the response, the new store contents, and
the effect trace. -/
def webhook (cfg : PriceConfig) (w : CheckoutWorld) (sigValid : Bool) (ev : StripeEvent)
    (store : List String) : HttpResp × List String × List Effect :=
  if !sigValid then (.badRequest, store, [])
  else if ev.id ∈ store then (.alreadyProcessed, store, [.loadStore])
  else if ev.type = "checkout.session.completed" then
    let h := handleCheckoutCompleted cfg w ev.session
    match h.thrown with
    | some _ => (.serverError, store, .loadStore :: h.effects)
    | none =>
      (.received, store ++ [ev.id], .loadStore :: (h.effects ++ [.loadStore, .saveEvent ev.id]))
  else (.received, store ++ [ev.id], [.loadStore, .loadStore, .saveEvent ev.id])

/-! ## Rate limiter (`checkArchiveRateLimit`) -/

/-- `windowMs = 10 * 60 * 1000` (10 minutes). -/
def windowMs : Nat := 10 * 60 * 1000

/-- `const key = email.toLowerCase().trim()`. -/
def rlKey (email : String) : String := jsTrim (jsToLower email)

/-- The timestamps for this identity still inside the sliding window:
`archiveRateLimit.get(key).filter(t => now - t < windowMs)`. -/
def rlRecent (st : String → List Nat) (email : String) (now : Nat) : List Nat :=
  (st (rlKey email)).filter (fun t => now - t < windowMs)

/-- One `checkArchiveRateLimit(email)` call on window state `st` at time
`now`, parameterized by the request ceiling (`maxRequests`, 5 in
`src/server/index.js` and 30 in the staging variant): returns whether the
request is allowed and the updated window map.  A denied request stores
only the filtered timestamps; an allowed one appends `now`. -/
def rlStep (maxRequests : Nat) (st : String → List Nat) (email : String) (now : Nat) :
    Bool × (String → List Nat) :=
  let key := rlKey email
  let timestamps := rlRecent st email now
  if maxRequests ≤ timestamps.length then
    (false, fun k => if k = key then timestamps else st k)
  else
    (true, fun k => if k = key then timestamps ++ [now] else st k)

/-- `checkArchiveRateLimit` with the production ceiling of 5. -/
def checkArchiveRateLimit (st : String → List Nat) (email : String) (now : Nat) :
    Bool × (String → List Nat) :=
  rlStep 5 st email now

/-- The `src/unnamed/part_000` variant with the loosened test ceiling 30. -/
def checkArchiveRateLimitStaging (st : String → List Nat) (email : String) (now : Nat) :
    Bool × (String → List Nat) :=
  rlStep 30 st email now

/-! ## Entitlement resolver (`POST /archive/verify`) -/

/-- A Stripe customer record (only `customer.id` is consumed). -/
structure Customer where
  id : String
deriving DecidableEq, Repr

/-- A subscription line item (`item.price?.product`). -/
structure SubItem where
  product : Option String
deriving DecidableEq, Repr

/-- An active subscription (`sub.items.data`). -/
structure Subscription where
  items : List SubItem
deriving DecidableEq, Repr

/-- A completed checkout session as listed by the resolver. -/
structure CheckoutSession where
  id : String
  paymentStatus : String
  customerDetailsEmail : Option String
  customerEmail : Option String
deriving DecidableEq, Repr

/-- The Stripe read API as seen by one resolution request for a fixed email:
each operation either returns a page of data or throws. -/
structure StripeEnv where
  customersList : Except Unit (List Customer)
  subscriptionsList : String → Except Unit (List Subscription)
  sessionsListByCustomer : String → Except Unit (List CheckoutSession)
  sessionsListRecent : Except Unit (List CheckoutSession)
  listLineItems : String → Except Unit (List LineItem)

/-- The external lookups the resolver can make, for the consultation trace. -/
inductive ApiCall where
  | customersList
  | subscriptionsList (customerId : String)
  | sessionsListByCustomer (customerId : String)
  | sessionsListRecent
  | listLineItems (sessionId : String)
deriving DecidableEq, Repr

/-- Response alternatives of `POST /archive/verify` (both variants). -/
inductive ArchiveResp where
  | authFailed
  | validationError
  | rateLimited
  | notFound
  | granted (keys : List String)
  | serverError
deriving DecidableEq, Repr

/-- Does this active subscription contain the circle-membership product? -/
def subGrantsCircle (sub : Subscription) : Bool :=
  sub.items.any (fun it => it.product == some circleProductId)

/-- Channel 1 inner loops: scan customers in order; each iteration lists the
customer's active subscriptions (an error here is thrown into the
channel-wide catch, aborting the scan with no keys); a subscription holding
the circle product adds the full key set and breaks out of every loop. -/
def chan1Go (env : StripeEnv) : List Customer → List ApiCall → List String × List ApiCall
  | [], tr => ([], tr)
  | c :: rest, tr =>
    match env.subscriptionsList c.id with
    | .error _ => ([], tr ++ [ApiCall.subscriptionsList c.id])
    | .ok subs =>
      if subs.any subGrantsCircle then
        (canonicalSessionKeys, tr ++ [ApiCall.subscriptionsList c.id])
      else chan1Go env rest (tr ++ [ApiCall.subscriptionsList c.id])

/-- Result of channel 1: the customer list bound to `allCustomers`, the keys
granted so far, and the call trace. -/
structure Chan1Out where
  allCustomers : List Customer
  keys : List String
  trace : List ApiCall
deriving Repr

/-- Channel 1 (subscription check), `try`-wrapped in the source: a failing
`customers.list` leaves `allCustomers` empty; a failing `subscriptions.list`
leaves it populated.  Either error is swallowed (logged only). -/
def channel1 (env : StripeEnv) : Chan1Out :=
  match env.customersList with
  | .error _ => ⟨[], [], [ApiCall.customersList]⟩
  | .ok custs =>
    ⟨custs, (chan1Go env custs [ApiCall.customersList]).1,
      (chan1Go env custs [ApiCall.customersList]).2⟩

/-- `payment_status === 'paid' || payment_status === 'no_payment_required'`. -/
def qualifiesPayment (s : CheckoutSession) : Bool :=
  s.paymentStatus == "paid" || s.paymentStatus == "no_payment_required"

/-- The buyer email of a listed session, lowercased:
`(customer_details?.email || customer_email || '').toLowerCase()`. -/
def sessionEmailOf (s : CheckoutSession) : String :=
  jsToLower (jsStrOr s.customerDetailsEmail s.customerEmail)

/-- Per-session line-item fetch inside channels 2 and 3: its own
`try`/`catch` swallows an error (that session contributes no keys);
otherwise each line item whose truthy price ID is in
`ARCHIVE_SESSION_MAP` unions its archive session keys. -/
def sessionLineItemKeys (cfg : PriceConfig) (env : StripeEnv) (s : CheckoutSession)
    (ks : List String) (tr : List ApiCall) : List String × List ApiCall :=
  match env.listLineItems s.id with
  | .error _ => (ks, tr ++ [ApiCall.listLineItems s.id])
  | .ok items =>
    (items.foldl
      (fun acc it =>
        match it.priceId with
        | some pid =>
          if pid != "" then
            match archiveSessionMap cfg pid with
            | some keys => addKeys acc keys
            | none => acc
          else acc
        | none => acc)
      ks,
     tr ++ [ApiCall.listLineItems s.id])

/-- Channel 2 (registered-purchase check): for each customer, list completed
checkout sessions — this call is not wrapped, so an error is thrown to the
handler's outer catch (the `.error` branch) — and union keys from each
qualifying session's line items. -/
def chan2Go (cfg : PriceConfig) (env : StripeEnv) :
    List Customer → List String → List ApiCall →
    Except (List ApiCall) (List String × List ApiCall)
  | [], ks, tr => .ok (ks, tr)
  | c :: rest, ks, tr =>
    match env.sessionsListByCustomer c.id with
    | .error _ => .error (tr ++ [ApiCall.sessionsListByCustomer c.id])
    | .ok sessions =>
      let p := sessions.foldl
        (fun p s => if qualifiesPayment s then sessionLineItemKeys cfg env s p.1 p.2 else p)
        (ks, tr ++ [ApiCall.sessionsListByCustomer c.id])
      chan2Go cfg env rest p.1 p.2

/-- Channel 3 (guest-purchase check): list the most recent completed
sessions — again unwrapped, so an error is thrown to the outer catch —
and union keys from the sessions whose buyer email matches. -/
def channel3 (cfg : PriceConfig) (env : StripeEnv) (email : String)
    (ks : List String) (tr : List ApiCall) :
    Except (List ApiCall) (List String × List ApiCall) :=
  match env.sessionsListRecent with
  | .error _ => .error (tr ++ [ApiCall.sessionsListRecent])
  | .ok sessions =>
    .ok (sessions.foldl
      (fun p s =>
        if sessionEmailOf s == email && qualifiesPayment s then
          sessionLineItemKeys cfg env s p.1 p.2
        else p)
      (ks, tr ++ [ApiCall.sessionsListRecent]))

/-- The final response of the resolution `try` block: no keys is the
"no purchase history found" page, otherwise the keys are filtered through
the fixed canonical order and the video page is rendered. -/
def archiveOutcome (ks : List String) : ArchiveResp :=
  if ks.length = 0 then .notFound
  else .granted (canonicalSessionKeys.filter (fun k => ks.contains k))

/-- The entitlement-resolution block of `POST /archive/verify` (identical in
both source variants): channel 1, then — only if it granted nothing —
channel 2 over the customers found, then — only if still nothing and no
customer record existed — channel 3; an error escaping to the outer catch
is the HTTP 500 page (`serverError`).  Also returns the lookup trace. -/
def resolveEntitlement (cfg : PriceConfig) (env : StripeEnv) (email : String) :
    ArchiveResp × List ApiCall :=
  let c1 := channel1 env
  if c1.keys.length = 0 then
    match chan2Go cfg env c1.allCustomers c1.keys c1.trace with
    | .error tr => (.serverError, tr)
    | .ok (ks, tr) =>
      if ks.length = 0 && c1.allCustomers.length = 0 then
        match channel3 cfg env email ks tr with
        | .error tr2 => (.serverError, tr2)
        | .ok (ks2, tr2) => (archiveOutcome ks2, tr2)
      else (archiveOutcome ks, tr)
  else (archiveOutcome c1.keys, c1.trace)

/-! ## The `/archive/verify` request handlers -/

/-- All characters are non-whitespace (the `[^\s@]` classes; `@` is excluded
by construction after splitting on it). -/
def noWhitespace (l : List Char) : Bool := l.all (fun c => !c.isWhitespace)

/-- The domain part matches `[^\s@]+\.[^\s@]+`: some dot has a nonempty
prefix and a nonempty suffix around it. -/
def domainHasDot (d : List Char) : Bool :=
  (List.range d.length).any
    (fun i => d.getD i ' ' == '.' && decide (0 < i) && decide (i + 1 < d.length))

/-- The validation regex `/^[^\s@]+@[^\s@]+\.[^\s@]+$/`: exactly one `@`,
no whitespace, nonempty local part, and a dot splitting the domain into
nonempty halves. -/
def emailValid (s : String) : Bool :=
  match s.toList.splitOn '@' with
  | [l, d] => !l.isEmpty && noWhitespace l && !d.isEmpty && noWhitespace d && domainHasDot d
  | _ => false

/-- Where the identity email of a `part_000` verify request came from. -/
inductive EmailSource where
  | fromToken
  | fromBody
deriving DecidableEq, Repr

/-- Lines 1110–1126 of `src/unnamed/part_000`: when the request carries a
truthy `firebaseToken` and Firebase is configured, verify it (a
verification error is the auth-failure page); in every other case fall
back to `(req.body.email || '').trim().toLowerCase()` with no
verification at all. -/
def resolveRequestEmail (firebaseConfigured : Bool) (firebaseToken : Option String)
    (verifyIdToken : String → Except Unit (Option String)) (bodyEmail : Option String) :
    Except Unit (String × EmailSource) :=
  match firebaseToken with
  | some tok =>
    if tok != "" && firebaseConfigured then
      match verifyIdToken tok with
      | .error _ => .error ()
      | .ok decodedEmail => .ok (jsToLower (decodedEmail.getD ""), .fromToken)
    else .ok (jsToLower (jsTrim (bodyEmail.getD "")), .fromBody)
  | none => .ok (jsToLower (jsTrim (bodyEmail.getD "")), .fromBody)

/-- `POST /archive/verify` of `src/unnamed/part_000`: identity resolution,
validation, rate limiting (test ceiling 30), then entitlement
resolution.  Returns the response and the updated rate-limit state. -/
def archiveVerifyP0 (cfg : PriceConfig) (env : StripeEnv) (firebaseConfigured : Bool)
    (firebaseToken : Option String) (verifyIdToken : String → Except Unit (Option String))
    (bodyEmail : Option String) (rlState : String → List Nat) (now : Nat) :
    ArchiveResp × (String → List Nat) :=
  match resolveRequestEmail firebaseConfigured firebaseToken verifyIdToken bodyEmail with
  | .error _ => (.authFailed, rlState)
  | .ok (email, _) =>
    if !emailValid email then (.validationError, rlState)
    else
      let step := checkArchiveRateLimitStaging rlState email now
      if !step.1 then (.rateLimited, step.2)
      else ((resolveEntitlement cfg env email).1, step.2)

/-- `POST /archive/verify` of `src/server/index.js`: the email comes from the
request body only, and the production ceiling 5 applies. -/
def archiveVerify (cfg : PriceConfig) (env : StripeEnv) (bodyEmail : Option String)
    (rlState : String → List Nat) (now : Nat) : ArchiveResp × (String → List Nat) :=
  let email := jsToLower (jsTrim (bodyEmail.getD ""))
  if !emailValid email then (.validationError, rlState)
  else
    let step := checkArchiveRateLimit rlState email now
    if !step.1 then (.rateLimited, step.2)
    else ((resolveEntitlement cfg env email).1, step.2)

/-! ## Observation helpers and concrete fixtures -/

/-- Is this effect a notification-dispatch attempt? -/
def isDispatch : Effect → Bool
  | .dispatch _ _ => true
  | _ => false

/-- Is this effect a failed-notification record? -/
def isRecordFailed : Effect → Bool
  | .recordFailed _ _ _ => true
  | _ => false

/-- Did this send result come back as a thrown error? -/
def isErr : Except String Unit → Bool
  | .error _ => true
  | .ok _ => false

/-- How many effects in the trace satisfy `p`. -/
def countEffects (p : Effect → Bool) (l : List Effect) : Nat := (l.filter p).length

/-- Is this lookup one that channel 1 may make? -/
def isChannel1Call : ApiCall → Bool
  | .customersList => true
  | .subscriptionsList _ => true
  | _ => false

/-- A concrete price configuration with four distinct price IDs. -/
def cfgW : PriceConfig := ⟨"price_full", "price_prac", "price_img", "price_gas"⟩

/-- A transport whose every attempt fails. -/
def failAllTransport : Nat → Except String Unit := fun _ => .error "SendGrid API Error: 500"

/-- A provider state in which the subscription list and every line-item
fetch throw, while the one registered customer has one paid checkout
session. -/
def envErrs : StripeEnv :=
  { customersList := .ok [⟨"cus_1"⟩]
    subscriptionsList := fun _ => .error ()
    sessionsListByCustomer := fun _ => .ok [⟨"cs_1", "paid", some "user@example.com", none⟩]
    sessionsListRecent := .ok []
    listLineItems := fun _ => .error () }

/-- `envErrs` with the line-item fetch repaired: the paid session turns out
to hold the practical-AI seminar ticket. -/
def envErrsRepaired : StripeEnv :=
  { envErrs with listLineItems := fun _ => .ok [⟨some "price_prac"⟩] }

/-- A provider state in which every lookup throws. -/
def envAllDown : StripeEnv :=
  { customersList := .error ()
    subscriptionsList := fun _ => .error ()
    sessionsListByCustomer := fun _ => .error ()
    sessionsListRecent := .error ()
    listLineItems := fun _ => .error () }

/-- A provider state with one customer holding an active circle-membership
subscription (everything else errors, to show it is never consulted). -/
def envSub : StripeEnv :=
  { customersList := .ok [⟨"cus_9"⟩]
    subscriptionsList := fun _ => .ok [⟨[⟨some circleProductId⟩]⟩]
    sessionsListByCustomer := fun _ => .error ()
    sessionsListRecent := .error ()
    listLineItems := fun _ => .error () }

/-- A webhook world whose line-item fetch finds one practical-AI ticket and
whose transport succeeds immediately. -/
def wOk : CheckoutWorld := ⟨fun _ => .ok [⟨some "price_prac"⟩], fun _ => .ok ()⟩

/-- A concrete completed-checkout event. -/
def evW : StripeEvent := ⟨"evt_1", "checkout.session.completed", ⟨"cs_1", some "buyer@example.com", none⟩⟩

/-- A rate-limit window state holding five timestamps for every key. -/
def rlStateFull : String → List Nat := fun _ => [0, 1, 2, 3, 4]

/-! ## Helper lemmas -/

theorem countEffects_nil (p : Effect → Bool) : countEffects p [] = 0 := rfl

theorem countEffects_append (p : Effect → Bool) (a b : List Effect) :
    countEffects p (a ++ b) = countEffects p a + countEffects p b := by
  simp [countEffects, List.filter_append]

theorem countEffects_cons (p : Effect → Bool) (e : Effect) (l : List Effect) :
    countEffects p (e :: l) = (if p e then 1 else 0) + countEffects p l := by
  by_cases h : p e
  · simp [countEffects, List.filter_cons, h]
    omega
  · simp [countEffects, List.filter_cons, h]

theorem countEffects_dispatch_catalog (l : List String) :
    countEffects isDispatch (l.map Effect.catalogLookup) = 0 := by
  induction l with
  | nil => rfl
  | cons x xs ih => simpa [countEffects_cons, isDispatch] using ih

theorem countEffects_record_catalog (l : List String) :
    countEffects isRecordFailed (l.map Effect.catalogLookup) = 0 := by
  induction l with
  | nil => rfl
  | cons x xs ih => simpa [countEffects_cons, isRecordFailed] using ih

theorem countEffects_dispatchAndRecord_dispatch (t : Nat → Except String Unit)
    (recipient productName : String) (keys : List String) :
    countEffects isDispatch (dispatchAndRecord t recipient productName keys) = 1 := by
  unfold dispatchAndRecord
  cases h : (sendEmailWithRetry t).result <;> simp [countEffects, isDispatch]

theorem countEffects_dispatchAndRecord_record (t : Nat → Except String Unit)
    (recipient productName : String) (keys : List String) :
    countEffects isRecordFailed (dispatchAndRecord t recipient productName keys) =
      (if isErr (sendEmailWithRetry t).result then 1 else 0) := by
  unfold dispatchAndRecord
  cases h : (sendEmailWithRetry t).result <;> simp [countEffects, isRecordFailed, isErr, h]

/-! ## Claim theorems -/

/-- C8: a webhook request whose signature verification fails is answered
with the HTTP 400 response, leaves the processed-event store untouched,
and produces no effect whatsoever — in particular no store read or write
and no catalog lookup. -/
theorem webhook_rejects_invalid_signature (cfg : PriceConfig) (w : CheckoutWorld)
    (ev : StripeEvent) (store : List String) :
    webhook cfg w false ev store = (.badRequest, store, []) := rfl

/-- C5 counterexample: an invocation of the notification send operation in
which the transport fails on all 3 attempts performs exactly two waits, of
1s and 2s — not the claimed three waits of 1s, 2s and 4s (the configured
4000 ms delay is unreachable, since no wait follows the final attempt). -/
theorem retry_waits_counterexample :
    (sendEmailWithRetry failAllTransport).attempts = 3 ∧
    (sendEmailWithRetry failAllTransport).waits = [1000, 2000] ∧
    (sendEmailWithRetry failAllTransport).waits ≠ [1000, 2000, 4000] := by
  refine ⟨rfl, rfl, ?_⟩
  decide

/-- C5 (amended): the send operation makes at most 3 transport attempts,
with waits of 1s and then 2s between consecutive attempts (the waits
performed are exactly the first `attempts - 1` entries of the configured
delay list); the overall result is an error precisely when all three
attempts fail; a transport failing on all 3 attempts yields exactly one
failed-notification record carrying the recipient and the final attempt's
error; a transport succeeding on one of its attempts yields none. -/
theorem retry_contract (t : Nat → Except String Unit) (recipient productName : String)
    (keys : List String) :
    (sendEmailWithRetry t).attempts ≤ 3 ∧
    (sendEmailWithRetry t).waits = delays.take ((sendEmailWithRetry t).attempts - 1) ∧
    (isErr (sendEmailWithRetry t).result = true ↔
      isErr (t 0) = true ∧ isErr (t 1) = true ∧ isErr (t 2) = true) ∧
    (∀ m2, isErr (t 0) = true → isErr (t 1) = true → t 2 = .error m2 →
      (sendEmailWithRetry t).attempts = 3 ∧
      (sendEmailWithRetry t).result = .error m2 ∧
      dispatchAndRecord t recipient productName keys =
        [.dispatch recipient keys, .recordFailed recipient productName m2]) ∧
    ((sendEmailWithRetry t).result = .ok () →
      dispatchAndRecord t recipient productName keys = [.dispatch recipient keys]) := by
  cases h0 : t 0 with
  | ok u =>
    cases u
    simp [sendEmailWithRetry, sendGo, h0, dispatchAndRecord, isErr, delays]
  | error m0 =>
    cases h1 : t 1 with
    | ok u =>
      cases u
      simp [sendEmailWithRetry, sendGo, h0, h1, dispatchAndRecord, isErr, delays]
    | error m1 =>
      cases h2 : t 2 with
      | ok u =>
        cases u
        simp [sendEmailWithRetry, sendGo, h0, h1, h2, dispatchAndRecord, isErr, delays]
      | error m2 =>
        simp [sendEmailWithRetry, sendGo, h0, h1, h2, dispatchAndRecord, isErr, delays]

/-- C5 witness: with the always-failing transport, three attempts are made
and exactly one failed-notification record with the final error and the
intended recipient is written. -/
theorem retry_contract_witness :
    (sendEmailWithRetry failAllTransport).attempts = 3 ∧
    dispatchAndRecord failAllTransport "buyer@example.com" "P" ["C", "F"] =
      [.dispatch "buyer@example.com" ["C", "F"],
       .recordFailed "buyer@example.com" "P" "SendGrid API Error: 500"] := by
  have h := (retry_contract failAllTransport "buyer@example.com" "P" ["C", "F"]).2.2.2.1
    "SendGrid API Error: 500" rfl rfl rfl
  exact ⟨h.1, h.2.2⟩

/-- C3: for the per-identity sliding window (10 minutes) with ceiling `N`:
a request is allowed exactly when fewer than `N` recorded timestamps are
still inside the window (so with `N` in-window requests already recorded,
the `(N+1)`-th is denied); a denied request stores only the filtered
timestamps, appending nothing; and once the window has elapsed past the
earliest of the `N` recorded timestamps, a subsequent request is allowed
again. -/
theorem rate_limit_sliding_window (N : Nat) (st : String → List Nat) (email : String)
    (now : Nat) :
    ((rlStep N st email now).1 = true ↔ (rlRecent st email now).length < N) ∧
    ((rlStep N st email now).1 = false →
      (rlStep N st email now).2 (rlKey email) = rlRecent st email now) ∧
    (∀ now2 t0 ts, st (rlKey email) = t0 :: ts → (∀ u ∈ ts, t0 ≤ u) →
      ts.length + 1 = N → t0 + windowMs ≤ now2 → (rlStep N st email now2).1 = true) := by
  refine ⟨?_, ?_, ?_⟩
  · by_cases h : N ≤ (rlRecent st email now).length
    · have hb : (rlStep N st email now).1 = false := by simp [rlStep, h]
      rw [hb]
      simp only [Bool.false_eq_true, false_iff]
      omega
    · have hb : (rlStep N st email now).1 = true := by simp [rlStep, h]
      rw [hb]
      simp only [true_iff]
      omega
  · intro hf
    by_cases h : N ≤ (rlRecent st email now).length
    · simp [rlStep, h]
    · simp [rlStep, h] at hf
  · intro now2 t0 ts hst hmin hlen hwin
    have hrec : rlRecent st email now2 = ts.filter (fun t => now2 - t < windowMs) := by
      have ht0 : ¬ (now2 - t0 < windowMs) := by omega
      simp [rlRecent, hst, List.filter_cons, ht0]
    have hlt : (rlRecent st email now2).length < N := by
      rw [hrec]
      calc (ts.filter (fun t => now2 - t < windowMs)).length
          ≤ ts.length := List.length_filter_le _ _
        _ < N := by omega
    simp [rlStep, Nat.not_le.mpr hlt]

/-- C3 witness: with the default ceiling 5 and five in-window timestamps,
the sixth request at time 5 is denied and appends nothing, while a request
after the window has passed the earliest timestamp is allowed again. -/
theorem rate_limit_sliding_window_witness :
    (rlStep 5 rlStateFull "User@Example.com " 5).1 = false ∧
    (rlStep 5 rlStateFull "User@Example.com " 5).2 (rlKey "User@Example.com ") =
      [0, 1, 2, 3, 4] ∧
    (rlStep 5 rlStateFull "User@Example.com " (windowMs + 1)).1 = true := by
  have h := rate_limit_sliding_window 5 rlStateFull "User@Example.com " 5
  have hfalse : (rlStep 5 rlStateFull "User@Example.com " 5).1 = false := by
    cases hb : (rlStep 5 rlStateFull "User@Example.com " 5).1
    · rfl
    · exfalso
      have hlt := h.1.mp hb
      revert hlt
      decide
  refine ⟨hfalse, ?_, ?_⟩
  · have := h.2.1 hfalse
    rw [this]
    decide
  · exact h.2.2 (windowMs + 1) 0 [1, 2, 3, 4] rfl (by decide) rfl (by omega)

theorem mem_insertSorted (a x : String) (l : List String) :
    a ∈ insertSorted x l ↔ a = x ∨ a ∈ l := by
  induction l with
  | nil => simp [insertSorted]
  | cons y ys ih =>
    by_cases h : strLe x y
    · simp [insertSorted, h]
    · simp [insertSorted, h, ih]
      tauto

theorem mem_sortStr (a : String) (l : List String) : a ∈ sortStr l ↔ a ∈ l := by
  induction l with
  | nil => simp [sortStr]
  | cons y ys ih =>
    show a ∈ insertSorted y (sortStr ys) ↔ _
    rw [mem_insertSorted]
    simp [ih]

theorem mem_addKey_self (ks : List String) (k : String) : k ∈ addKey ks k := by
  by_cases h : k ∈ ks <;> simp [addKey, h]

/-- C6: a purchase whose line items carry the price IDs of the practical-AI
seminar (meeting keys `C`,`F`) and the image-generation seminar (meeting
keys `D`,`F`) produces the notification key set exactly `C`,`D`,`F`:
unioned, deduplicated, in lexicographic order. -/
theorem catalog_union_dedup_sorted (cfg : PriceConfig)
    (h1 : cfg.practicalAI ≠ cfg.googleHP) (h2 : cfg.practicalAI ≠ cfg.imageGen)
    (h3 : cfg.imageGen ≠ cfg.googleHP) :
    ∃ pn, notificationKeys cfg [cfg.practicalAI, cfg.imageGen] =
      some (pn, ["C", "D", "F"]) := by
  have eZ1 : zoomLinkMap cfg cfg.practicalAI = some ["C", "F"] := by
    simp [zoomLinkMap, h1, h2]
  have eZ2 : zoomLinkMap cfg cfg.imageGen = some ["D", "F"] := by
    simp [zoomLinkMap, h3]
  have eP2 : productNameMap cfg cfg.imageGen = some "今使える画像生成AIセミナー（第２回開催）" := by
    simp [productNameMap, h3]
  refine ⟨"今使える画像生成AIセミナー（第２回開催）", ?_⟩
  have ecs : catalogScan cfg [cfg.practicalAI, cfg.imageGen] =
      (some "今使える画像生成AIセミナー（第２回開催）", ["C", "F", "D"]) := by
    simp only [catalogScan, List.foldl, catalogStep, eZ1, eZ2, eP2]
    decide
  simp only [notificationKeys, ecs]
  decide

/-- C6 witness: the theorem's hypotheses hold for the concrete distinct
price IDs of `cfgW`, yielding the key set `C`,`D`,`F`. -/
theorem catalog_union_dedup_sorted_witness :
    ∃ pn, notificationKeys cfgW ["price_prac", "price_img"] =
      some (pn, ["C", "D", "F"]) := by
  have h := catalog_union_dedup_sorted cfgW (by decide) (by decide) (by decide)
  exact h

/-- C7: whenever the purchase-completed action goes on to send a
notification (the catalog scan produced a product name and a non-empty key
set), the shared session key `F` is in the notification key set, whether or
not any purchased item's mapping contains it. -/
theorem shared_key_always_included (cfg : PriceConfig) (priceIds : List String)
    (pn : String) (keys : List String)
    (h : notificationKeys cfg priceIds = some (pn, keys)) :
    "F" ∈ keys := by
  unfold notificationKeys at h
  rcases hcs : catalogScan cfg priceIds with ⟨opn, ks⟩
  rw [hcs] at h
  cases opn with
  | none => simp at h
  | some n =>
    by_cases hl : ks.length = 0
    · simp [hl] at h
    · simp only [hl, if_false] at h
      have hk : sortStr (addKey ks "F") = keys := by
        have := Option.some.inj h
        exact congrArg Prod.snd this
      rw [← hk]
      exact (mem_sortStr _ _).mpr (mem_addKey_self ks "F")

/-- C7 witness: a purchase of the image-generation seminar alone (whose
zoom-link mapping is `D`,`F`) has `F` in its notification key set. -/
theorem shared_key_always_included_witness :
    notificationKeys cfgW ["price_img"] =
      some ("今使える画像生成AIセミナー（第２回開催）", ["D", "F"]) ∧
    "F" ∈ ["D", "F"] := by
  have he : notificationKeys cfgW ["price_img"] =
      some ("今使える画像生成AIセミナー（第２回開催）", ["D", "F"]) := by decide
  exact ⟨he, shared_key_always_included cfgW ["price_img"] _ ["D", "F"] he⟩

theorem chan1Go_keys_eq (env : StripeEnv) (custs : List Customer) (tr : List ApiCall) :
    (chan1Go env custs tr).1 = [] ∨ (chan1Go env custs tr).1 = canonicalSessionKeys := by
  induction custs generalizing tr with
  | nil => left; rfl
  | cons c rest ih =>
    unfold chan1Go
    cases hs : env.subscriptionsList c.id with
    | error e => left; rfl
    | ok subs =>
      by_cases hg : subs.any subGrantsCircle = true
      · right; simp [hg]
      · simp only [Bool.not_eq_true] at hg
        simp only [hg, Bool.false_eq_true, if_false]
        exact ih _

theorem chan1Go_trace_channel1 (env : StripeEnv) (custs : List Customer) (tr : List ApiCall)
    (h : tr.all isChannel1Call = true) :
    ((chan1Go env custs tr).2).all isChannel1Call = true := by
  induction custs generalizing tr with
  | nil => exact h
  | cons c rest ih =>
    unfold chan1Go
    cases hs : env.subscriptionsList c.id with
    | error e => simp [List.all_append, h, isChannel1Call]
    | ok subs =>
      by_cases hg : subs.any subGrantsCircle = true
      · simp [hg, List.all_append, h, isChannel1Call]
      · simp only [Bool.not_eq_true] at hg
        simp only [hg, Bool.false_eq_true, if_false]
        exact ih _ (by simp [List.all_append, h, isChannel1Call])

theorem channel1_keys_eq (env : StripeEnv) (h : (channel1 env).keys ≠ []) :
    (channel1 env).keys = canonicalSessionKeys := by
  unfold channel1 at h ⊢
  cases hc : env.customersList with
  | error e => rw [hc] at h; simp at h
  | ok custs =>
    rw [hc] at h
    rcases chan1Go_keys_eq env custs [ApiCall.customersList] with h0 | h0
    · exact absurd h0 h
    · exact h0

theorem channel1_trace_channel1 (env : StripeEnv) :
    ((channel1 env).trace).all isChannel1Call = true := by
  unfold channel1
  cases hc : env.customersList with
  | error e => rfl
  | ok custs => exact chan1Go_trace_channel1 env custs _ rfl

theorem archiveOutcome_canonical :
    archiveOutcome canonicalSessionKeys = .granted canonicalSessionKeys := by decide

/-- C4: whenever channel 1 (the active circle-membership subscription scan)
yields a non-empty grant, the resolution result is the full fixed session
set `A`,`B`,`C`,`D`,`E1`,`E2`,`F`, and the lookup trace holds only
channel-1 calls — no checkout-session list and no line-item fetch was
made. -/
theorem subscription_short_circuit (cfg : PriceConfig) (env : StripeEnv) (email : String)
    (h : (channel1 env).keys ≠ []) :
    (resolveEntitlement cfg env email).1 = .granted canonicalSessionKeys ∧
    ((resolveEntitlement cfg env email).2).all isChannel1Call = true := by
  have hk := channel1_keys_eq env h
  have hlen : ¬ ((channel1 env).keys.length = 0) := by
    rw [hk]; decide
  unfold resolveEntitlement
  simp only [hlen, if_false, hk, archiveOutcome_canonical]
  exact ⟨rfl, channel1_trace_channel1 env⟩

/-- C4 witness: in `envSub` (one customer with an active circle-membership
subscription; every session or line-item lookup would throw if consulted)
the result is the full canonical set and only channel-1 calls appear. -/
theorem subscription_short_circuit_witness :
    (resolveEntitlement cfgW envSub "user@example.com").1 =
      .granted canonicalSessionKeys ∧
    ((resolveEntitlement cfgW envSub "user@example.com").2).all isChannel1Call = true :=
  subscription_short_circuit cfgW envSub "user@example.com" (by decide)

/-- C1 counterexample: in `envErrs` every channel's data lookup errors out —
channel 1's subscription list throws (swallowed by its catch) and channel
2's only line-item fetch throws (swallowed by the per-session catch) — yet
the resolver answers with the "no purchase history found" page
(`notFound`), not the retryable 500 page; repairing just the erroring
line-item fetch (`envErrsRepaired`) shows a real entitlement was masked.
This refutes the claim that the resolver never reports "no entitlement"
when the emptiness of the result is due to channel errors. -/
theorem resolver_error_masking_counterexample :
    envErrs.subscriptionsList "cus_1" = .error () ∧
    envErrs.listLineItems "cs_1" = .error () ∧
    (resolveEntitlement cfgW envErrs "user@example.com").1 = .notFound ∧
    (resolveEntitlement cfgW envErrsRepaired "user@example.com").1 =
      .granted ["A", "B", "C", "F"] := by
  refine ⟨rfl, rfl, ?_, ?_⟩ <;> decide

/-- C1 (amended): the resolver surfaces the retryable 500 failure
(`ProviderUnavailable`), distinguishable from "no entitlement found",
exactly when a lookup error escapes the swallowing handlers; in
particular, when the customer lookup of channel 1 errors and the guest
checkout-session list of channel 3 errors, the result is the 500 page.
Errors caught inside channel 1 or inside a per-session line-item fetch
are swallowed, so a resolution emptied only by such errors is reported as
"no entitlement found" (see the counterexample). -/
theorem resolver_provider_unavailable (cfg : PriceConfig) (env : StripeEnv) (email : String)
    (h1 : env.customersList = .error ())
    (h2 : env.sessionsListRecent = .error ()) :
    (resolveEntitlement cfg env email).1 = .serverError := by
  unfold resolveEntitlement channel1
  rw [h1]
  simp [chan2Go, channel3, h2]

/-- C1 witness: with every provider lookup down, the resolver answers with
the 500 page. -/
theorem resolver_provider_unavailable_witness :
    (resolveEntitlement cfgW envAllDown "user@example.com").1 = .serverError :=
  resolver_provider_unavailable cfgW envAllDown "user@example.com" rfl rfl

theorem webhook_already_processed (cfg : PriceConfig) (w : CheckoutWorld) (ev : StripeEvent)
    (store : List String) (h : ev.id ∈ store) :
    webhook cfg w true ev store = (.alreadyProcessed, store, [.loadStore]) := by
  simp [webhook, h]

theorem handleCheckoutCompleted_notify_eq (cfg : PriceConfig) (w : CheckoutWorld)
    (s : SessionPayload) (items : List LineItem) (pn : String) (ks : List String)
    (hli : w.lineItems s.id = .ok items)
    (hem : jsStrOr s.customerDetailsEmail s.customerEmail ≠ "")
    (hnk : notificationKeys cfg
      ((items.filterMap LineItem.priceId).filter (fun p => p != "")) = some (pn, ks)) :
    handleCheckoutCompleted cfg w s =
      ⟨none, Effect.fetchLineItems s.id ::
        (((items.filterMap LineItem.priceId).filter (fun p => p != "")).map
            Effect.catalogLookup ++
          dispatchAndRecord w.transport (jsStrOr s.customerDetailsEmail s.customerEmail)
            pn ks)⟩ := by
  unfold handleCheckoutCompleted
  rw [hli]
  simp [hem, hnk]

theorem catalogScan_foldl_const (cfg : PriceConfig) (pids : List String)
    (h : ∀ pid ∈ pids, productNameMap cfg pid = none ∧ zoomLinkMap cfg pid = none)
    (acc : Option String × List String) :
    pids.foldl (catalogStep cfg) acc = acc := by
  induction pids generalizing acc with
  | nil => rfl
  | cons x xs ih =>
    have hx := h x (List.mem_cons_self x xs)
    have hstep : catalogStep cfg acc x = acc := by
      simp [catalogStep, hx.1, hx.2]
    rw [List.foldl_cons, hstep]
    exact ih (fun p hp => h p (List.mem_cons_of_mem x hp)) acc

theorem notificationKeys_none (cfg : PriceConfig) (pids : List String)
    (h : ∀ pid ∈ pids, productNameMap cfg pid = none ∧ zoomLinkMap cfg pid = none) :
    notificationKeys cfg pids = none := by
  unfold notificationKeys catalogScan
  rw [catalogScan_foldl_const cfg pids h]

/-- C2: a verified, not-yet-seen, notifiable purchase-completed event is
handled once — its identifier is committed to the store — and a redelivery
of the same identifier answers success (`already_processed`) touching
nothing but the store read, so across both deliveries there is exactly one
notification-dispatch attempt, and exactly one recorded failure when (and
only when) the transport exhausted its retries. -/
theorem webhook_idempotent_redelivery (cfg : PriceConfig) (w w2 : CheckoutWorld)
    (ev : StripeEvent) (store : List String) (items : List LineItem) (pn : String)
    (ks : List String)
    (hnew : ev.id ∉ store)
    (htype : ev.type = "checkout.session.completed")
    (hli : w.lineItems ev.session.id = .ok items)
    (hem : jsStrOr ev.session.customerDetailsEmail ev.session.customerEmail ≠ "")
    (hnk : notificationKeys cfg
      ((items.filterMap LineItem.priceId).filter (fun p => p != "")) = some (pn, ks)) :
    (webhook cfg w true ev store).1 = .received ∧
    ev.id ∈ (webhook cfg w true ev store).2.1 ∧
    webhook cfg w2 true ev (webhook cfg w true ev store).2.1 =
      (.alreadyProcessed, (webhook cfg w true ev store).2.1, [.loadStore]) ∧
    countEffects isDispatch ((webhook cfg w true ev store).2.2 ++
      (webhook cfg w2 true ev (webhook cfg w true ev store).2.1).2.2) = 1 ∧
    countEffects isRecordFailed ((webhook cfg w true ev store).2.2 ++
      (webhook cfg w2 true ev (webhook cfg w true ev store).2.1).2.2) =
      (if isErr (sendEmailWithRetry w.transport).result then 1 else 0) := by
  have h1 : webhook cfg w true ev store =
      (.received, store ++ [ev.id],
        Effect.loadStore :: Effect.fetchLineItems ev.session.id ::
          (((items.filterMap LineItem.priceId).filter (fun p => p != "")).map
              Effect.catalogLookup ++
            (dispatchAndRecord w.transport
                (jsStrOr ev.session.customerDetailsEmail ev.session.customerEmail) pn ks ++
              [Effect.loadStore, Effect.saveEvent ev.id]))) := by
    unfold webhook
    rw [handleCheckoutCompleted_notify_eq cfg w ev.session items pn ks hli hem hnk]
    simp [hnew, htype]
  have hmem : ev.id ∈ store ++ [ev.id] := by simp
  have h2 := webhook_already_processed cfg w2 ev (store ++ [ev.id]) hmem
  rw [h1]
  refine ⟨rfl, by simp, by simpa using h2, ?_, ?_⟩
  · rw [h2]
    simp [countEffects_append, countEffects_cons, countEffects_nil,
      countEffects_dispatch_catalog, countEffects_dispatchAndRecord_dispatch, isDispatch]
  · rw [h2]
    by_cases hE : isErr (sendEmailWithRetry w.transport).result = true
    · simp [countEffects_append, countEffects_cons, countEffects_nil,
        countEffects_record_catalog, countEffects_dispatchAndRecord_record,
        isRecordFailed, hE]
    · simp only [Bool.not_eq_true] at hE
      simp [countEffects_append, countEffects_cons, countEffects_nil,
        countEffects_record_catalog, countEffects_dispatchAndRecord_record,
        isRecordFailed, hE]

/-- C2 witness: processing the concrete event `evW` once commits it, and
its redelivery answers `already_processed` with only a store read. -/
theorem webhook_idempotent_redelivery_witness :
    (webhook cfgW wOk true evW []).1 = .received ∧
    "evt_1" ∈ (webhook cfgW wOk true evW []).2.1 ∧
    webhook cfgW wOk true evW (webhook cfgW wOk true evW []).2.1 =
      (.alreadyProcessed, (webhook cfgW wOk true evW []).2.1, [.loadStore]) := by
  have h := webhook_idempotent_redelivery cfgW wOk wOk evW [] [⟨some "price_prac"⟩]
    "第２回実務で使えるAI×建築セミナー" ["C", "F"] (by simp) rfl rfl (by decide) (by decide)
  exact ⟨h.1, h.2.1, h.2.2.1⟩

/-- C10: a verified purchase-completed event with a buyer email whose line
items match nothing in the catalog maps triggers no dispatch attempt and
no failure record, yet its identifier is still committed, and a redelivery
answers `already_processed` with no dispatch either — the event can never
produce a notification. -/
theorem uncataloged_purchase_committed (cfg : PriceConfig) (w w2 : CheckoutWorld)
    (ev : StripeEvent) (store : List String) (items : List LineItem)
    (hnew : ev.id ∉ store)
    (htype : ev.type = "checkout.session.completed")
    (hli : w.lineItems ev.session.id = .ok items)
    (hem : jsStrOr ev.session.customerDetailsEmail ev.session.customerEmail ≠ "")
    (hcat : ∀ pid ∈ (items.filterMap LineItem.priceId).filter (fun p => p != ""),
      productNameMap cfg pid = none ∧ zoomLinkMap cfg pid = none) :
    (webhook cfg w true ev store).1 = .received ∧
    ev.id ∈ (webhook cfg w true ev store).2.1 ∧
    countEffects isDispatch (webhook cfg w true ev store).2.2 = 0 ∧
    countEffects isRecordFailed (webhook cfg w true ev store).2.2 = 0 ∧
    webhook cfg w2 true ev (webhook cfg w true ev store).2.1 =
      (.alreadyProcessed, (webhook cfg w true ev store).2.1, [.loadStore]) ∧
    countEffects isDispatch
      (webhook cfg w2 true ev (webhook cfg w true ev store).2.1).2.2 = 0 := by
  have hnk := notificationKeys_none cfg _ hcat
  have hh : handleCheckoutCompleted cfg w ev.session =
      ⟨none, Effect.fetchLineItems ev.session.id ::
        ((items.filterMap LineItem.priceId).filter (fun p => p != "")).map
          Effect.catalogLookup⟩ := by
    unfold handleCheckoutCompleted
    rw [hli]
    simp [hem, hnk]
  have h1 : webhook cfg w true ev store =
      (.received, store ++ [ev.id],
        Effect.loadStore :: Effect.fetchLineItems ev.session.id ::
          (((items.filterMap LineItem.priceId).filter (fun p => p != "")).map
              Effect.catalogLookup ++
            [Effect.loadStore, Effect.saveEvent ev.id])) := by
    unfold webhook
    rw [hh]
    simp [hnew, htype]
  have hmem : ev.id ∈ store ++ [ev.id] := by simp
  have h2 := webhook_already_processed cfg w2 ev (store ++ [ev.id]) hmem
  rw [h1]
  refine ⟨rfl, by simp, ?_, ?_, by simpa using h2, ?_⟩
  · simp [countEffects_append, countEffects_cons, countEffects_nil,
      countEffects_dispatch_catalog, isDispatch]
  · simp [countEffects_append, countEffects_cons, countEffects_nil,
      countEffects_record_catalog, isRecordFailed]
  · rw [h2]
    simp [countEffects_cons, countEffects_nil, isDispatch]

/-- C10 witness: a paid event holding only the unknown price ID
`price_zzz` is committed with no dispatch, and redelivery is inert. -/
theorem uncataloged_purchase_committed_witness :
    (webhook cfgW ⟨fun _ => .ok [⟨some "price_zzz"⟩], fun _ => .ok ()⟩ true evW []).1 =
      .received ∧
    countEffects isDispatch
      (webhook cfgW ⟨fun _ => .ok [⟨some "price_zzz"⟩], fun _ => .ok ()⟩ true evW []).2.2 =
      0 := by
  have h := uncataloged_purchase_committed cfgW
    ⟨fun _ => .ok [⟨some "price_zzz"⟩], fun _ => .ok ()⟩
    ⟨fun _ => .ok [⟨some "price_zzz"⟩], fun _ => .ok ()⟩
    evW [] [⟨some "price_zzz"⟩] (by simp) rfl rfl (by decide) (by decide)
  exact ⟨h.1, h.2.2.1⟩

/-- C9: a `part_000` verify request carrying no `firebaseToken` resolves its
identity straight from the request body — trimmed and lowercased, never
verified (the response does not depend on the token verifier), even when
Firebase is configured — and, when that email passes validation and the
rate limiter, the response is exactly the entitlement resolution for it. -/
theorem tokenless_verify_uses_body_email (cfg : PriceConfig) (env : StripeEnv)
    (firebaseConfigured : Bool) (verify1 verify2 : String → Except Unit (Option String))
    (bodyEmail : Option String) (rlState : String → List Nat) (now : Nat) :
    resolveRequestEmail firebaseConfigured none verify1 bodyEmail =
      .ok (jsToLower (jsTrim (bodyEmail.getD "")), .fromBody) ∧
    archiveVerifyP0 cfg env firebaseConfigured none verify1 bodyEmail rlState now =
      archiveVerifyP0 cfg env firebaseConfigured none verify2 bodyEmail rlState now ∧
    (emailValid (jsToLower (jsTrim (bodyEmail.getD ""))) = true →
      (checkArchiveRateLimitStaging rlState (jsToLower (jsTrim (bodyEmail.getD ""))) now).1 = true →
      (archiveVerifyP0 cfg env firebaseConfigured none verify1 bodyEmail rlState now).1 =
        (resolveEntitlement cfg env (jsToLower (jsTrim (bodyEmail.getD "")))).1) := by
  refine ⟨rfl, rfl, ?_⟩
  intro hv hr
  simp [archiveVerifyP0, resolveRequestEmail, hv, hr]

/-- C9 witness: with Firebase configured and an always-failing verifier, a
tokenless request for `user@example.com` is resolved for exactly that
body email. -/
theorem tokenless_verify_uses_body_email_witness :
    resolveRequestEmail true none (fun _ => .error ()) (some "user@example.com") =
      .ok ("user@example.com", .fromBody) ∧
    (archiveVerifyP0 cfgW envAllDown true none (fun _ => .error ())
        (some "user@example.com") (fun _ => ([] : List Nat)) 0).1 =
      (resolveEntitlement cfgW envAllDown "user@example.com").1 := by
  have h := tokenless_verify_uses_body_email cfgW envAllDown true
    (fun _ => .error ()) (fun _ => .error ()) (some "user@example.com") (fun _ => ([] : List Nat)) 0
  refine ⟨?_, ?_⟩
  · have := h.1
    simpa using this
  · have h3 := h.2.2 (by decide) (by decide)
    simpa using h3

end ArchivePortal
